import Mathlib

/-!
Verification of the log-throughput orchestration and aggregation pipeline
(`script/testing/replication/log_throughput/log_throughput.py`).

The development shallowly embeds the module:

* `MetricsRecord` / `aggregate_log_throughput` embed the pandas aggregation
  (`df.iloc[1:]`, row-count guard, windowed average).
* `NodeSpec` / `runSetups` / `runRuns` / `sync_servers` / `log_throughput`
  embed the orchestration control flow as an explicit event trace plus an
  outcome, with Python exceptions split into `RuntimeError` (caught by the
  `except RuntimeError` clause) and any other exception class.
* `METRICS_FILES` / `metricsPrologue` embed the module-global metrics-file
  list and the `other_metrics_files.remove(metrics_file)` aliasing prologue.
-/

/-- One row of the metrics csv: start time (µs), elapsed time (µs) and the
number of log records in the sampling interval.  Numeric fields are modelled
as rationals so that the averaging arithmetic is exact. -/
structure MetricsRecord where
  start_time : ℚ
  elapsed_time : ℚ
  num_records : ℚ
deriving Repr, DecidableEq, Inhabited

/-- Total time of the measurement window, in microseconds: the code's
`end_time - start_time` where `end_time = df.iloc[-1][start] + df.iloc[-1][elapsed]`
and `start_time = df.iloc[0][start]`, computed on `df = records.iloc[1:]`. -/
def aggregate_total_time (records : List MetricsRecord) : ℚ :=
  let df := records.drop 1
  (df.getLastD default).start_time + (df.getLastD default).elapsed_time
    - df.headI.start_time

/-- Total number of log records in the window: `df[num_records].sum()` on
`df = records.iloc[1:]`. -/
def aggregate_total_records (records : List MetricsRecord) : ℚ :=
  ((records.drop 1).map MetricsRecord.num_records).sum

/-- Embedding of `aggregate_log_throughput`: drop the first row
(`df = df.iloc[1:]`), report insufficient data (`none`, the code logs
"Not enough data to calculate log throughput" and returns) when at most one
row remains (`df.shape[0] <= 1`), otherwise return the average throughput
`(total_records / total_time) * 1000` in records per millisecond. -/
def aggregate_log_throughput (records : List MetricsRecord) : Option ℚ :=
  let df := records.drop 1
  if df.length ≤ 1 then
    none
  else
    some (aggregate_total_records records / aggregate_total_time records * 1000)

/-- Monotonically increasing start times (strict, between adjacent records),
executable so that concrete inputs can be checked by evaluation. -/
def startTimesIncreasingb : List MetricsRecord → Bool
  | [] => true
  | [_] => true
  | a :: b :: t => decide (a.start_time < b.start_time) && startTimesIncreasingb (b :: t)

/-- Strictly increasing start times, the spec's "monotonically increasing
`start_time`". -/
def StartTimesIncreasing (records : List MetricsRecord) : Prop :=
  startTimesIncreasingb records = true

instance (records : List MetricsRecord) : Decidable (StartTimesIncreasing records) :=
  inferInstanceAs (Decidable (startTimesIncreasingb records = true))

/-- The spec's worked example input `[(0,100,5),(100,100,50),(300,100,45)]`. -/
def exampleRecords : List MetricsRecord :=
  [⟨0, 100, 5⟩, ⟨100, 100, 50⟩, ⟨300, 100, 45⟩]

/-- A two-record strictly increasing sequence, used to exercise the
row-count guard. -/
def twoRecords : List MetricsRecord :=
  [⟨0, 100, 5⟩, ⟨100, 100, 50⟩]

/-- A second two-record strictly increasing sequence. -/
def twoRecords2 : List MetricsRecord :=
  [⟨10, 20, 7⟩, ⟨40, 20, 9⟩]

theorem aggregate_eq_none_iff (records : List MetricsRecord) :
    aggregate_log_throughput records = none ↔ records.length < 3 := by
  unfold aggregate_log_throughput
  have hlen : (records.drop 1).length = records.length - 1 := List.length_drop 1 records
  by_cases h : (records.drop 1).length ≤ 1
  · rw [if_pos h]
    exact iff_of_true rfl (by omega)
  · rw [if_neg h]
    exact iff_of_false (Option.some_ne_none _) (by omega)

lemma getLastD_irrel {α : Type} (l : List α) (h : l ≠ []) (d1 d2 : α) :
    l.getLastD d1 = l.getLastD d2 := by
  cases l with
  | nil => exact absurd rfl h
  | cons b t => rw [List.getLastD_cons, List.getLastD_cons]

lemma getLastD_mem {α : Type} (l : List α) (d : α) (h : l ≠ []) : l.getLastD d ∈ l := by
  induction l generalizing d with
  | nil => exact absurd rfl h
  | cons b t ih =>
    rw [List.getLastD_cons]
    cases t with
    | nil => exact List.Mem.head _
    | cons c t2 => exact List.mem_cons_of_mem _ (ih b (by simp))

lemma start_lt_getLastD (b : MetricsRecord) (t : List MetricsRecord)
    (hc : startTimesIncreasingb (b :: t) = true) (ht : t ≠ []) :
    b.start_time < (t.getLastD b).start_time := by
  induction t generalizing b with
  | nil => exact absurd rfl ht
  | cons c t2 ih =>
    rw [List.getLastD_cons]
    rw [startTimesIncreasingb, Bool.and_eq_true, decide_eq_true_eq] at hc
    obtain ⟨h1, h2⟩ := hc
    cases t2 with
    | nil => exact h1
    | cons d t3 => exact h1.trans (ih c h2 (by simp))

/-- C1 (corrected): for every record sequence of length at least 3 with
monotonically increasing start times, the aggregation discards exactly the
first record and computes
`throughput = (Σ num_records over records 1..end) /
 (start_time of last + elapsed_time of last - start_time of the second) * 1000`
records per millisecond.  (The original claim's bound "length ≥ 2" fails: the
code requires at least two rows to remain after the first is discarded.) -/
theorem C1_amended_formula (records : List MetricsRecord)
    (h3 : 3 ≤ records.length) (hmono : StartTimesIncreasing records) :
    aggregate_log_throughput records =
      some ((((records.drop 1).map MetricsRecord.num_records).sum) /
        ((records.getLastD default).start_time + (records.getLastD default).elapsed_time
          - (records.getD 1 default).start_time) * 1000) := by
  cases records with
  | nil => simp at h3
  | cons a l =>
    cases l with
    | nil => simp at h3
    | cons b l2 =>
      cases l2 with
      | nil => simp at h3
      | cons c t =>
        simp only [aggregate_log_throughput, aggregate_total_records, aggregate_total_time,
          List.drop_succ_cons, List.drop_zero, List.length_cons, List.getLastD_cons,
          List.headI, List.getD, List.getElem?_cons_succ, List.getElem?_cons_zero,
          List.get?_cons_succ, List.get?_cons_zero, Option.getD_some]
        rw [if_neg (by omega)]

/-- C1 witness at the spec's worked example. -/
theorem C1_amended_formula_witness :
    3 ≤ exampleRecords.length ∧ StartTimesIncreasing exampleRecords ∧
    aggregate_log_throughput exampleRecords =
      some ((((exampleRecords.drop 1).map MetricsRecord.num_records).sum) /
        ((exampleRecords.getLastD default).start_time
          + (exampleRecords.getLastD default).elapsed_time
          - (exampleRecords.getD 1 default).start_time) * 1000) :=
  ⟨by decide, by decide, C1_amended_formula exampleRecords (by decide) (by decide)⟩

/-- C1 counterexample: a strictly increasing sequence of exactly 2 records is
rejected by the row-count guard (`df.shape[0] <= 1` after dropping the first
row), so no throughput is computed, contradicting the claim's "length ≥ 2". -/
theorem C1_cex_two_records :
    2 ≤ twoRecords.length ∧ StartTimesIncreasing twoRecords ∧
    aggregate_log_throughput twoRecords = none ∧
    aggregate_log_throughput twoRecords ≠
      some (aggregate_total_records twoRecords / aggregate_total_time twoRecords * 1000) :=
  ⟨by decide, by decide, rfl, by decide⟩

/-- A three-record strictly increasing sequence with nonnegative elapsed
times. -/
def exampleRecords2 : List MetricsRecord :=
  [⟨0, 10, 1⟩, ⟨10, 10, 2⟩, ⟨30, 10, 3⟩]

/-- C2 (corrected): the aggregation reports the insufficient-data error
(returns no value) exactly when the input has fewer than 3 records, i.e. when
fewer than 2 rows remain after the first is unconditionally discarded; for
every sequence of length at least 3 it produces a throughput value, and when
start times are monotonically increasing and elapsed times nonnegative the
divisor `total_time` is strictly positive, so it never divides by zero.
(The original claim's threshold "fewer than 2" fails at length 2.) -/
theorem C2_amended_insufficient_data (records : List MetricsRecord) :
    (aggregate_log_throughput records = none ↔ records.length < 3) ∧
    (3 ≤ records.length → StartTimesIncreasing records →
      (∀ r ∈ records, 0 ≤ r.elapsed_time) → 0 < aggregate_total_time records) := by
  refine ⟨aggregate_eq_none_iff records, ?_⟩
  intro h3 hmono hel
  cases records with
  | nil => simp at h3
  | cons a l =>
    cases l with
    | nil => simp at h3
    | cons b l2 =>
      cases l2 with
      | nil => simp at h3
      | cons c t =>
        have hmono2 : startTimesIncreasingb (a :: b :: c :: t) = true := hmono
        have hbc : startTimesIncreasingb (b :: c :: t) = true := by
          rw [startTimesIncreasingb, Bool.and_eq_true] at hmono2
          exact hmono2.2
        have hlt : b.start_time < ((c :: t).getLastD b).start_time :=
          start_lt_getLastD b (c :: t) hbc (by simp)
        have hmem : (c :: t).getLastD b ∈ a :: b :: c :: t := by
          have := getLastD_mem (c :: t) b (by simp)
          exact List.mem_cons_of_mem _ (List.mem_cons_of_mem _ this)
        have hel2 : 0 ≤ ((c :: t).getLastD b).elapsed_time := hel _ hmem
        have hrw : aggregate_total_time (a :: b :: c :: t) =
            ((c :: t).getLastD b).start_time + ((c :: t).getLastD b).elapsed_time
              - b.start_time := by
          simp only [aggregate_total_time, List.drop_succ_cons, List.drop_zero,
            List.getLastD_cons, List.headI]
        rw [hrw]
        linarith

/-- C2 witness at a concrete three-record input. -/
theorem C2_amended_insufficient_data_witness :
    (aggregate_log_throughput exampleRecords2 = none ↔ exampleRecords2.length < 3) ∧
    0 < aggregate_total_time exampleRecords2 :=
  ⟨(C2_amended_insufficient_data exampleRecords2).1,
   (C2_amended_insufficient_data exampleRecords2).2 (by decide) (by decide) (by decide)⟩

/-- C2 counterexample: a sequence of exactly 2 records (so not "fewer than 2")
still makes the aggregation report insufficient data, because after the first
record is discarded only one row remains. -/
theorem C2_cex_threshold :
    2 ≤ twoRecords2.length ∧ aggregate_log_throughput twoRecords2 = none :=
  ⟨by decide, rfl⟩

/-- Role of a node server: `PrimaryNode` or `ReplicaNode` (`node_server.py`
only ever instantiates these two classes). -/
inductive Role : Type
  | primary
  | replica
deriving Repr, DecidableEq

/-- A Python exception, split by the only distinction `log_throughput` makes:
`RuntimeError` (caught by `except RuntimeError`) versus any other exception
class (caught only by `except Exception`). -/
inductive PyError : Type
  | runtimeError (msg : String)
  | otherError (msg : String)
deriving Repr, DecidableEq

/-- Message carried by the exception (Python's `str(e)`). -/
def PyError.msg : PyError → String
  | .runtimeError m => m
  | .otherError m => m

/-- Behaviour of one node server for a run: its role and the outcome of its
`setup()` and `run()` calls (`none` = the call returns normally, `some e` =
the call raises `e`).  After a successful `setup()` the node `is_running`. -/
structure NodeSpec where
  role : Role
  setupResult : Option PyError
  runResult : Option PyError
deriving Repr, DecidableEq

/-- Observable steps of one `log_throughput` invocation, in program order. -/
inductive Event : Type
  | setup (i : Nat)
  | deleteMetricsFile
  | run (i : Nat)
  | syncAttempt
  | logError (msg : String)
  | logWarn (msg : String)
  | teardown (i : Nat)
  | createResultsDir
  | deleteOtherMetricsFiles
  | moveMetricsFile
  | aggregate
deriving Repr, DecidableEq

/-- How one `log_throughput` invocation ends: normal return after reporting
(`completed`), the early `return` in the `except RuntimeError` handler
(`aborted`), or an uncaught exception propagating to the caller (`raised`). -/
inductive Outcome : Type
  | completed
  | aborted
  | raised (e : PyError)
deriving Repr, DecidableEq

/-- The `for server in servers: server.setup()` loop starting at index `i`:
returns the emitted `setup` events, the indices of nodes whose `setup()`
completed (so `is_running()` is true), and the first exception raised. -/
def runSetups : Nat → List NodeSpec → List Event × List Nat × Option PyError
  | _, [] => ([], [], none)
  | i, s :: rest =>
    match s.setupResult with
    | some e => ([Event.setup i], [], some e)
    | none =>
      let r := runSetups (i + 1) rest
      (Event.setup i :: r.1, i :: r.2.1, r.2.2)

/-- The `for server in servers: server.run()` loop starting at index `i`:
returns the emitted `run` events and the first exception raised. -/
def runRuns : Nat → List NodeSpec → List Event × Option PyError
  | _, [] => ([], none)
  | i, s :: rest =>
    match s.runResult with
    | some e => ([Event.run i], some e)
    | none =>
      let r := runRuns (i + 1) rest
      (Event.run i :: r.1, r.2)

/-- Indices of nodes whose `setup()` completed during the try-block, in setup
order; these are exactly the nodes with `is_running()` true afterwards. -/
def startedNodes (servers : List NodeSpec) : List Nat :=
  (runSetups 0 servers).2.1

/-- First exception raised inside the `try` block (setups, then runs), or
`none` when both loops complete. -/
def tryPhaseError (servers : List NodeSpec) : Option PyError :=
  match (runSetups 0 servers).2.2 with
  | some e => some e
  | none => (runRuns 0 servers).2

/-- Error message of the `raise RuntimeError` in `sync_servers`. -/
def MULTI_PRIMARY_MSG : String := "Should never have multiple primaries running at once"

/-- Number of servers that are `PrimaryNode` instances. -/
def countPrimaries (servers : List NodeSpec) : Nat :=
  (servers.filter (fun s => s.role == Role.primary)).length

/-- Number of servers that are `ReplicaNode` instances. -/
def countReplicas (servers : List NodeSpec) : Nat :=
  (servers.filter (fun s => s.role == Role.replica)).length

/-- Result of `sync_servers`: whether `replica_sync` (the polling step) was
invoked, and the exception escaping the call, if any. -/
structure SyncResult where
  polled : Bool
  error : Option PyError
deriving Repr, DecidableEq

/-- Embedding of `sync_servers`: return immediately for fewer than two
servers; raise for more than one primary; return immediately for zero
primaries; otherwise poll via `replica_sync`, whose outcome is the external
parameter `replicaSyncResult` (`some e` models a raised `e`, e.g. a sync
timeout). -/
def sync_servers (servers : List NodeSpec) (replicaSyncResult : Option PyError) : SyncResult :=
  if servers.length < 2 then ⟨false, none⟩
  else if 1 < countPrimaries servers then
    ⟨false, some (PyError.runtimeError MULTI_PRIMARY_MSG)⟩
  else if countPrimaries servers = 0 then ⟨false, none⟩
  else ⟨true, replicaSyncResult⟩

/-- Embedding of the body of `log_throughput` after the servers list is
built: the try-block (setups, metrics-file deletion, runs) with its
`except RuntimeError` handler (log the error, tear down every `is_running()`
node in list order, return), then `sync_servers` under `except Exception`
(any sync failure only logs a warning), then unconditional teardown of every
server in list order, results-directory creation, deletion of the other
metrics files, relocation of the metrics file and the throughput
aggregation.  A non-`RuntimeError` exception in the try-block is not caught
and propagates. -/
def log_throughput (servers : List NodeSpec) (replicaSyncResult : Option PyError) :
    List Event × Outcome :=
  let su := runSetups 0 servers
  match su.2.2 with
  | some (PyError.runtimeError m) =>
    (su.1 ++ [Event.logError m] ++ su.2.1.map Event.teardown, Outcome.aborted)
  | some (PyError.otherError m) => (su.1, Outcome.raised (PyError.otherError m))
  | none =>
    let ru := runRuns 0 servers
    match ru.2 with
    | some (PyError.runtimeError m) =>
      (su.1 ++ [Event.deleteMetricsFile] ++ ru.1 ++ [Event.logError m]
         ++ su.2.1.map Event.teardown, Outcome.aborted)
    | some (PyError.otherError m) =>
      (su.1 ++ [Event.deleteMetricsFile] ++ ru.1, Outcome.raised (PyError.otherError m))
    | none =>
      let sy := sync_servers servers replicaSyncResult
      let syncEvs :=
        (if sy.polled then [Event.syncAttempt] else []) ++
          (match sy.error with
           | some e => [Event.logWarn ("Syncing databases failed: " ++ e.msg)]
           | none => [])
      (su.1 ++ [Event.deleteMetricsFile] ++ ru.1 ++ syncEvs
         ++ (List.range servers.length).map Event.teardown
         ++ [Event.createResultsDir, Event.deleteOtherMetricsFiles,
             Event.moveMetricsFile, Event.aggregate],
       Outcome.completed)

/-- Indices of `teardown` events in a trace, in order of occurrence. -/
def teardownIndices (evs : List Event) : List Nat :=
  evs.filterMap (fun e =>
    match e with
    | Event.teardown i => some i
    | _ => none)

/-- The test-type selector of the CLI. -/
inductive TestType : Type
  | primary
  | replica
deriving Repr, DecidableEq

/-- Roles of the servers built by `get_servers`: a `PrimaryNode` (plus a
`ReplicaNode` when replication is enabled) for the primary test type, a
single `ReplicaNode` for the replica test type. -/
def get_servers_roles (test_type : TestType) (replication_enabled : Bool) : List Role :=
  match test_type with
  | TestType.primary =>
    if replication_enabled then [Role.primary, Role.replica] else [Role.primary]
  | TestType.replica => [Role.replica]

/-- Servers with the given roles whose `setup()` and `run()` all succeed. -/
def okServers (roles : List Role) : List NodeSpec :=
  roles.map (fun ρ => ⟨ρ, none, none⟩)

lemma runSetups_events_setup (i : Nat) (l : List NodeSpec) :
    ∀ e ∈ (runSetups i l).1, ∃ j, e = Event.setup j := by
  induction l generalizing i with
  | nil =>
    intro e he
    simp [runSetups] at he
  | cons s rest ih =>
    intro e he
    rw [runSetups] at he
    cases hs : s.setupResult with
    | some err =>
      rw [hs] at he
      simp only [List.mem_singleton] at he
      exact ⟨i, he⟩
    | none =>
      rw [hs] at he
      simp only [List.mem_cons] at he
      cases he with
      | inl h => exact ⟨i, h⟩
      | inr h => exact ih (i + 1) e h

lemma runSetups_running_bounds (i : Nat) (l : List NodeSpec) :
    ∀ j ∈ (runSetups i l).2.1, i ≤ j ∧ j < i + l.length := by
  induction l generalizing i with
  | nil =>
    intro j hj
    simp [runSetups] at hj
  | cons s rest ih =>
    intro j hj
    rw [runSetups] at hj
    cases hs : s.setupResult with
    | some err =>
      rw [hs] at hj
      simp at hj
    | none =>
      rw [hs] at hj
      simp only [List.mem_cons] at hj
      cases hj with
      | inl h =>
        subst h
        simp
      | inr h =>
        have := ih (i + 1) j h
        simp only [List.length_cons]
        omega

lemma runSetups_running_pairwise (i : Nat) (l : List NodeSpec) :
    ((runSetups i l).2.1).Pairwise (· < ·) := by
  induction l generalizing i with
  | nil => simp [runSetups]
  | cons s rest ih =>
    rw [runSetups]
    cases hs : s.setupResult with
    | some err => simp
    | none =>
      simp only
      refine List.Pairwise.cons ?_ (ih (i + 1))
      intro j hj
      have := runSetups_running_bounds (i + 1) rest j hj
      omega

lemma runSetups_all_ok (i : Nat) (l : List NodeSpec)
    (h : (runSetups i l).2.2 = none) :
    (runSetups i l).2.1 = List.range' i l.length := by
  induction l generalizing i with
  | nil => simp [runSetups, List.range']
  | cons s rest ih =>
    cases hs : s.setupResult with
    | some err =>
      rw [runSetups, hs] at h
      have h2 : some err = (none : Option PyError) := h
      exact Option.noConfusion h2
    | none =>
      rw [runSetups, hs] at h
      rw [runSetups, hs]
      show i :: (runSetups (i + 1) rest).2.1 = List.range' i (s :: rest).length
      rw [List.length_cons, List.range'_succ]
      exact congrArg (i :: ·) (ih (i + 1) h)

lemma runRuns_events_run (i : Nat) (l : List NodeSpec) :
    ∀ e ∈ (runRuns i l).1, ∃ j, e = Event.run j := by
  induction l generalizing i with
  | nil =>
    intro e he
    simp [runRuns] at he
  | cons s rest ih =>
    intro e he
    rw [runRuns] at he
    cases hs : s.runResult with
    | some err =>
      rw [hs] at he
      simp only [List.mem_singleton] at he
      exact ⟨i, he⟩
    | none =>
      rw [hs] at he
      simp only [List.mem_cons] at he
      cases he with
      | inl h => exact ⟨i, h⟩
      | inr h => exact ih (i + 1) e h

lemma log_throughput_setup_rte (servers : List NodeSpec) (r : Option PyError) (m : String)
    (h : (runSetups 0 servers).2.2 = some (PyError.runtimeError m)) :
    log_throughput servers r =
      ((runSetups 0 servers).1 ++ [Event.logError m]
        ++ (startedNodes servers).map Event.teardown, Outcome.aborted) := by
  simp only [log_throughput, startedNodes, h]

lemma log_throughput_setup_other (servers : List NodeSpec) (r : Option PyError) (m : String)
    (h : (runSetups 0 servers).2.2 = some (PyError.otherError m)) :
    log_throughput servers r =
      ((runSetups 0 servers).1, Outcome.raised (PyError.otherError m)) := by
  simp only [log_throughput, h]

lemma log_throughput_run_rte (servers : List NodeSpec) (r : Option PyError) (m : String)
    (h1 : (runSetups 0 servers).2.2 = none)
    (h2 : (runRuns 0 servers).2 = some (PyError.runtimeError m)) :
    log_throughput servers r =
      ((runSetups 0 servers).1 ++ [Event.deleteMetricsFile] ++ (runRuns 0 servers).1
        ++ [Event.logError m] ++ (startedNodes servers).map Event.teardown,
       Outcome.aborted) := by
  simp only [log_throughput, startedNodes, h1, h2]

lemma log_throughput_run_other (servers : List NodeSpec) (r : Option PyError) (m : String)
    (h1 : (runSetups 0 servers).2.2 = none)
    (h2 : (runRuns 0 servers).2 = some (PyError.otherError m)) :
    log_throughput servers r =
      ((runSetups 0 servers).1 ++ [Event.deleteMetricsFile] ++ (runRuns 0 servers).1,
       Outcome.raised (PyError.otherError m)) := by
  simp only [log_throughput, h1, h2]

lemma log_throughput_clean (servers : List NodeSpec) (r : Option PyError)
    (h1 : (runSetups 0 servers).2.2 = none)
    (h2 : (runRuns 0 servers).2 = none) :
    log_throughput servers r =
      ((runSetups 0 servers).1 ++ [Event.deleteMetricsFile] ++ (runRuns 0 servers).1
        ++ ((if (sync_servers servers r).polled then [Event.syncAttempt] else [])
            ++ (match (sync_servers servers r).error with
                | some e => [Event.logWarn ("Syncing databases failed: " ++ e.msg)]
                | none => []))
        ++ (List.range servers.length).map Event.teardown
        ++ [Event.createResultsDir, Event.deleteOtherMetricsFiles,
            Event.moveMetricsFile, Event.aggregate],
       Outcome.completed) := by
  simp only [log_throughput, h1, h2]

lemma count_teardown_map (i : Nat) (l : List Nat) :
    ((l.map Event.teardown).count (Event.teardown i)) = l.count i := by
  induction l with
  | nil => rfl
  | cons a t ih =>
    simp only [List.map_cons, List.count_cons, ih]
    congr 1
    by_cases h : a = i
    · subst h
      simp
    · simp [h]

lemma teardownIndices_map (l : List Nat) : teardownIndices (l.map Event.teardown) = l := by
  induction l with
  | nil => rfl
  | cons a t ih =>
    simp only [teardownIndices, List.map_cons, List.filterMap_cons] at ih ⊢
    rw [ih]

lemma teardownIndices_append (l1 l2 : List Event) :
    teardownIndices (l1 ++ l2) = teardownIndices l1 ++ teardownIndices l2 :=
  List.filterMap_append l1 l2 _

lemma teardownIndices_setups (i : Nat) (l : List NodeSpec) :
    teardownIndices (runSetups i l).1 = [] := by
  refine List.filterMap_eq_nil_iff.mpr ?_
  intro e he
  obtain ⟨j, hj⟩ := runSetups_events_setup i l e he
  subst hj
  rfl

lemma teardownIndices_runs (i : Nat) (l : List NodeSpec) :
    teardownIndices (runRuns i l).1 = [] := by
  refine List.filterMap_eq_nil_iff.mpr ?_
  intro e he
  obtain ⟨j, hj⟩ := runRuns_events_run i l e he
  subst hj
  rfl

lemma sync_servers_multi (servers : List NodeSpec) (r : Option PyError)
    (h : 2 ≤ countPrimaries servers) :
    sync_servers servers r = ⟨false, some (PyError.runtimeError MULTI_PRIMARY_MSG)⟩ := by
  have hle : countPrimaries servers ≤ servers.length :=
    List.length_filter_le _ servers
  unfold sync_servers
  rw [if_neg (by omega), if_pos (by omega)]

lemma counts_partition (servers : List NodeSpec) :
    countPrimaries servers + countReplicas servers = servers.length := by
  induction servers with
  | nil => rfl
  | cons s t ih =>
    simp only [countPrimaries, countReplicas, List.filter_cons, List.length_cons] at ih ⊢
    cases hr : s.role
    · simp only [beq_self_eq_true, if_true, beq_iff_eq, reduceCtorEq, if_false,
        List.length_cons]
      omega
    · simp only [beq_iff_eq, reduceCtorEq, if_false, beq_self_eq_true, if_true,
        List.length_cons]
      omega

/-- A primary node whose `setup()` and `run()` succeed. -/
def nodeOkP : NodeSpec := ⟨Role.primary, none, none⟩

/-- A replica node whose `setup()` and `run()` succeed. -/
def nodeOkR : NodeSpec := ⟨Role.replica, none, none⟩

/-- A node whose `setup()` raises a `RuntimeError`. -/
def nodeSetupRte : NodeSpec :=
  ⟨Role.replica, some (PyError.runtimeError "server failed to start"), none⟩

/-- A node whose `setup()` raises a non-`RuntimeError` exception (for example
an `OSError` while spawning the process). -/
def nodeSetupOther : NodeSpec :=
  ⟨Role.replica, some (PyError.otherError "disk full"), none⟩

/-- The primary-with-replication server list of `get_servers`, all healthy. -/
def prServers : List NodeSpec := okServers (get_servers_roles TestType.primary true)

lemma not_mem_setups (i : Nat) (l : List NodeSpec) (e : Event)
    (h : ∀ j, e ≠ Event.setup j) : e ∉ (runSetups i l).1 := by
  intro hmem
  obtain ⟨j, hj⟩ := runSetups_events_setup i l e hmem
  exact h j hj

lemma not_mem_runs (i : Nat) (l : List NodeSpec) (e : Event)
    (h : ∀ j, e ≠ Event.run j) : e ∉ (runRuns i l).1 := by
  intro hmem
  obtain ⟨j, hj⟩ := runRuns_events_run i l e hmem
  exact h j hj

/-- C3 (corrected): if `setup()` of any node raises a `RuntimeError` during a
multi-node run, then `teardown()` is invoked exactly once on every
previously-set-up (running) node and on no other node, `run()` and the
synchronization step are never invoked, and the invocation aborts with no
metrics file relocated and no throughput aggregation.  (The original claim
quantified over every exception; only `RuntimeError` is caught, see the
counterexample.) -/
theorem C3_amended_setup_failure_cleanup (servers : List NodeSpec)
    (r : Option PyError) (m : String)
    (hmulti : 2 ≤ servers.length)
    (hfail : (runSetups 0 servers).2.2 = some (PyError.runtimeError m)) :
    (log_throughput servers r).2 = Outcome.aborted ∧
    (∀ i ∈ startedNodes servers,
      (log_throughput servers r).1.count (Event.teardown i) = 1) ∧
    (∀ i, i ∉ startedNodes servers →
      Event.teardown i ∉ (log_throughput servers r).1) ∧
    (∀ i, Event.run i ∉ (log_throughput servers r).1) ∧
    Event.syncAttempt ∉ (log_throughput servers r).1 ∧
    Event.moveMetricsFile ∉ (log_throughput servers r).1 ∧
    Event.aggregate ∉ (log_throughput servers r).1 := by
  have hnd : (startedNodes servers).Nodup :=
    (runSetups_running_pairwise 0 servers).imp (fun hab => Nat.ne_of_lt hab)
  rw [log_throughput_setup_rte servers r m hfail]
  refine ⟨rfl, ?_, ?_, ?_, ?_, ?_, ?_⟩
  · intro i hi
    simp only [List.count_append, count_teardown_map]
    have h0 : (runSetups 0 servers).1.count (Event.teardown i) = 0 :=
      List.count_eq_zero.mpr
        (not_mem_setups 0 servers _ (fun j h => Event.noConfusion h))
    have h1 : ([Event.logError m] : List Event).count (Event.teardown i) = 0 := by
      simp
    rw [h0, h1, List.count_eq_one_of_mem hnd hi]
  · intro i hi hmem
    simp only [List.mem_append] at hmem
    rcases hmem with (hmem | hmem) | hmem
    · exact not_mem_setups 0 servers _ (fun j h => Event.noConfusion h) hmem
    · simp at hmem
    · rw [List.mem_map] at hmem
      obtain ⟨j, hj, hje⟩ := hmem
      injection hje with hji
      subst hji
      exact hi hj
  · intro i hmem
    simp only [List.mem_append, List.mem_singleton] at hmem
    rcases hmem with (hmem | hmem) | hmem
    · exact not_mem_setups 0 servers _ (fun j h => Event.noConfusion h) hmem
    · exact Event.noConfusion hmem
    · rw [List.mem_map] at hmem
      obtain ⟨j, _, hje⟩ := hmem
      exact Event.noConfusion hje
  · intro hmem
    simp only [List.mem_append, List.mem_singleton] at hmem
    rcases hmem with (hmem | hmem) | hmem
    · exact not_mem_setups 0 servers _ (fun j h => Event.noConfusion h) hmem
    · exact Event.noConfusion hmem
    · rw [List.mem_map] at hmem
      obtain ⟨j, _, hje⟩ := hmem
      exact Event.noConfusion hje
  · intro hmem
    simp only [List.mem_append, List.mem_singleton] at hmem
    rcases hmem with (hmem | hmem) | hmem
    · exact not_mem_setups 0 servers _ (fun j h => Event.noConfusion h) hmem
    · exact Event.noConfusion hmem
    · rw [List.mem_map] at hmem
      obtain ⟨j, _, hje⟩ := hmem
      exact Event.noConfusion hje
  · intro hmem
    simp only [List.mem_append, List.mem_singleton] at hmem
    rcases hmem with (hmem | hmem) | hmem
    · exact not_mem_setups 0 servers _ (fun j h => Event.noConfusion h) hmem
    · exact Event.noConfusion hmem
    · rw [List.mem_map] at hmem
      obtain ⟨j, _, hje⟩ := hmem
      exact Event.noConfusion hje

/-- C3 witness: a 2-node run whose second `setup()` raises a `RuntimeError`:
node 0 is torn down exactly once, node 1 never, nothing runs afterwards. -/
theorem C3_amended_setup_failure_cleanup_witness :
    (log_throughput [nodeOkP, nodeSetupRte] none).2 = Outcome.aborted ∧
    (log_throughput [nodeOkP, nodeSetupRte] none).1.count (Event.teardown 0) = 1 ∧
    Event.teardown 1 ∉ (log_throughput [nodeOkP, nodeSetupRte] none).1 ∧
    Event.run 0 ∉ (log_throughput [nodeOkP, nodeSetupRte] none).1 ∧
    Event.syncAttempt ∉ (log_throughput [nodeOkP, nodeSetupRte] none).1 ∧
    Event.moveMetricsFile ∉ (log_throughput [nodeOkP, nodeSetupRte] none).1 ∧
    Event.aggregate ∉ (log_throughput [nodeOkP, nodeSetupRte] none).1 := by
  have h := C3_amended_setup_failure_cleanup [nodeOkP, nodeSetupRte] none
    "server failed to start" (by decide) (by decide)
  exact ⟨h.1, h.2.1 0 (by decide), h.2.2.1 1 (by decide), h.2.2.2.1 0,
    h.2.2.2.2.1, h.2.2.2.2.2.1, h.2.2.2.2.2.2⟩

/-- C3 counterexample: in a 2-node run where the second node's `setup()`
raises a non-`RuntimeError` exception, the exception escapes `log_throughput`
uncaught and the already-set-up node 0 is never torn down, refuting the
claim for an arbitrary raised exception. -/
theorem C3_cex_non_runtime_error :
    2 ≤ ([nodeOkP, nodeSetupOther] : List NodeSpec).length ∧
    (runSetups 0 [nodeOkP, nodeSetupOther]).2.2 =
      some (PyError.otherError "disk full") ∧
    startedNodes [nodeOkP, nodeSetupOther] = [0] ∧
    (log_throughput [nodeOkP, nodeSetupOther] none).1.count (Event.teardown 0) = 0 ∧
    (log_throughput [nodeOkP, nodeSetupOther] none).2 =
      Outcome.raised (PyError.otherError "disk full") := by
  decide

/-- C4 (corrected): cleanup is guaranteed only for `RuntimeError`: whenever a
`RuntimeError` is raised while setting up or running the nodes, every node
that was started is torn down before `log_throughput` returns; but a
non-`RuntimeError` exception propagates uncaught with no teardown attempted,
so the original "for every exception (not only RuntimeError)" fails. -/
theorem C4_amended_runtime_error_cleanup (servers : List NodeSpec) (r : Option PyError) :
    (∀ m, tryPhaseError servers = some (PyError.runtimeError m) →
      (log_throughput servers r).2 = Outcome.aborted ∧
      ∀ i ∈ startedNodes servers, Event.teardown i ∈ (log_throughput servers r).1) ∧
    (∀ m, tryPhaseError servers = some (PyError.otherError m) →
      (log_throughput servers r).2 = Outcome.raised (PyError.otherError m) ∧
      teardownIndices (log_throughput servers r).1 = []) := by
  constructor
  · intro m hm
    unfold tryPhaseError at hm
    cases hsu : (runSetups 0 servers).2.2 with
    | some e =>
      simp only [hsu, Option.some.injEq] at hm
      subst hm
      rw [log_throughput_setup_rte servers r m hsu]
      refine ⟨rfl, ?_⟩
      intro i hi
      exact List.mem_append_right _ (List.mem_map.mpr ⟨i, hi, rfl⟩)
    | none =>
      simp only [hsu] at hm
      rw [log_throughput_run_rte servers r m hsu hm]
      refine ⟨rfl, ?_⟩
      intro i hi
      exact List.mem_append_right _ (List.mem_map.mpr ⟨i, hi, rfl⟩)
  · intro m hm
    unfold tryPhaseError at hm
    cases hsu : (runSetups 0 servers).2.2 with
    | some e =>
      simp only [hsu, Option.some.injEq] at hm
      subst hm
      rw [log_throughput_setup_other servers r m hsu]
      exact ⟨rfl, teardownIndices_setups 0 servers⟩
    | none =>
      simp only [hsu] at hm
      rw [log_throughput_run_other servers r m hsu hm]
      refine ⟨rfl, ?_⟩
      rw [teardownIndices_append, teardownIndices_append, teardownIndices_setups,
        teardownIndices_runs]
      rfl
  

/-- C4 witness: a `RuntimeError` in the second node's `setup()`: the run
aborts and the started node 0 is torn down. -/
theorem C4_amended_runtime_error_cleanup_witness :
    (log_throughput [nodeOkP, nodeSetupRte] none).2 = Outcome.aborted ∧
    Event.teardown 0 ∈ (log_throughput [nodeOkP, nodeSetupRte] none).1 := by
  have h := (C4_amended_runtime_error_cleanup [nodeOkP, nodeSetupRte] none).1
    "server failed to start" (by decide)
  exact ⟨h.1, h.2 0 (by decide)⟩

/-- C4 counterexample: a non-`RuntimeError` raised in the second node's
`setup()` leaks out of `log_throughput` with zero teardown events although
node 0 was started, refuting "cleanup under every failure path". -/
theorem C4_cex_other_exception_leaks :
    tryPhaseError [nodeOkR, nodeSetupOther] = some (PyError.otherError "disk full") ∧
    startedNodes [nodeOkR, nodeSetupOther] = [0] ∧
    teardownIndices (log_throughput [nodeOkR, nodeSetupOther] none).1 = [] ∧
    (log_throughput [nodeOkR, nodeSetupOther] none).2 =
      Outcome.raised (PyError.otherError "disk full") := by
  decide

/-- C5 (confirmed): an exception raised by the synchronization step is
downgraded to a logged warning: the run still tears down every node,
relocates the metrics file and reaches the throughput aggregation, and the
invocation completes normally instead of aborting. -/
theorem C5_sync_failure_nonfatal (servers : List NodeSpec) (r : Option PyError)
    (e : PyError)
    (h1 : (runSetups 0 servers).2.2 = none)
    (h2 : (runRuns 0 servers).2 = none)
    (h3 : (sync_servers servers r).error = some e) :
    (log_throughput servers r).2 = Outcome.completed ∧
    Event.logWarn ("Syncing databases failed: " ++ e.msg)
      ∈ (log_throughput servers r).1 ∧
    (∀ i < servers.length, Event.teardown i ∈ (log_throughput servers r).1) ∧
    Event.moveMetricsFile ∈ (log_throughput servers r).1 ∧
    Event.aggregate ∈ (log_throughput servers r).1 := by
  rw [log_throughput_clean servers r h1 h2]
  refine ⟨rfl, ?_, ?_, ?_, ?_⟩
  · simp [h3, List.mem_append]
  · intro i hi
    have hmem : Event.teardown i ∈ (List.range servers.length).map Event.teardown :=
      List.mem_map.mpr ⟨i, List.mem_range.mpr hi, rfl⟩
    simp only [List.mem_append]
    tauto
  · simp [List.mem_append]
  · simp [List.mem_append]

/-- C5 witness: a healthy primary+replica run whose `replica_sync` raises a
timeout. -/
theorem C5_sync_failure_nonfatal_witness :
    (log_throughput [nodeOkP, nodeOkR] (some (PyError.otherError "timeout"))).2
      = Outcome.completed ∧
    Event.logWarn ("Syncing databases failed: " ++ (PyError.otherError "timeout").msg)
      ∈ (log_throughput [nodeOkP, nodeOkR] (some (PyError.otherError "timeout"))).1 ∧
    Event.teardown 0
      ∈ (log_throughput [nodeOkP, nodeOkR] (some (PyError.otherError "timeout"))).1 ∧
    Event.teardown 1
      ∈ (log_throughput [nodeOkP, nodeOkR] (some (PyError.otherError "timeout"))).1 ∧
    Event.moveMetricsFile
      ∈ (log_throughput [nodeOkP, nodeOkR] (some (PyError.otherError "timeout"))).1 ∧
    Event.aggregate
      ∈ (log_throughput [nodeOkP, nodeOkR] (some (PyError.otherError "timeout"))).1 := by
  have h := C5_sync_failure_nonfatal [nodeOkP, nodeOkR]
    (some (PyError.otherError "timeout")) (PyError.otherError "timeout")
    (by decide) (by decide) (by decide)
  exact ⟨h.1, h.2.1, h.2.2.1 0 (by decide), h.2.2.1 1 (by decide),
    h.2.2.2.1, h.2.2.2.2⟩

/-- C6 (confirmed): whenever the servers list contains two (or more)
Primary-role nodes, `sync_servers` raises
`RuntimeError("Should never have multiple primaries running at once")`
before any replica polling (`replica_sync`) begins. -/
theorem C6_multiple_primaries_raise (servers : List NodeSpec) (r : Option PyError)
    (h : 2 ≤ countPrimaries servers) :
    sync_servers servers r =
      ⟨false, some (PyError.runtimeError MULTI_PRIMARY_MSG)⟩ :=
  sync_servers_multi servers r h

/-- C6 witness: two healthy primaries. -/
theorem C6_multiple_primaries_raise_witness :
    2 ≤ countPrimaries [nodeOkP, nodeOkP] ∧
    sync_servers [nodeOkP, nodeOkP] none =
      ⟨false, some (PyError.runtimeError MULTI_PRIMARY_MSG)⟩ :=
  ⟨by decide, C6_multiple_primaries_raise [nodeOkP, nodeOkP] none (by decide)⟩

/-- C7 (corrected): a multiple-primary configuration is NOT fatal to the
invocation: the `RuntimeError` raised by `sync_servers` is caught by the
`except Exception` clause and logged as a warning, after which the run tears
down the nodes, relocates the metrics file and reports throughput — it
completes, it does not abort. -/
theorem C7_amended_multi_primary_nonfatal (servers : List NodeSpec) (r : Option PyError)
    (h1 : (runSetups 0 servers).2.2 = none)
    (h2 : (runRuns 0 servers).2 = none)
    (h3 : 2 ≤ countPrimaries servers) :
    (log_throughput servers r).2 = Outcome.completed ∧
    Event.logWarn ("Syncing databases failed: " ++ MULTI_PRIMARY_MSG)
      ∈ (log_throughput servers r).1 ∧
    Event.moveMetricsFile ∈ (log_throughput servers r).1 ∧
    Event.aggregate ∈ (log_throughput servers r).1 := by
  have hsync := sync_servers_multi servers r h3
  rw [log_throughput_clean servers r h1 h2]
  refine ⟨rfl, ?_, ?_, ?_⟩
  · simp [hsync, PyError.msg, List.mem_append]
  · simp [List.mem_append]
  · simp [List.mem_append]

/-- C7 witness: a run with two healthy primaries completes and reports. -/
theorem C7_amended_multi_primary_nonfatal_witness :
    (log_throughput [nodeOkP, nodeOkP] none).2 = Outcome.completed ∧
    Event.logWarn ("Syncing databases failed: " ++ MULTI_PRIMARY_MSG)
      ∈ (log_throughput [nodeOkP, nodeOkP] none).1 ∧
    Event.moveMetricsFile ∈ (log_throughput [nodeOkP, nodeOkP] none).1 ∧
    Event.aggregate ∈ (log_throughput [nodeOkP, nodeOkP] none).1 :=
  C7_amended_multi_primary_nonfatal [nodeOkP, nodeOkP] none
    (by decide) (by decide) (by decide)

/-- C7 counterexample: with two healthy primaries `sync_servers` does raise
the multiple-primaries error, yet `log_throughput` completes, relocates the
metrics file and aggregates — no abort and a result is produced, refuting
"aborts with no result". -/
theorem C7_cex_multi_primary_not_fatal :
    (sync_servers [nodeOkP, nodeOkP] none).error =
      some (PyError.runtimeError MULTI_PRIMARY_MSG) ∧
    (log_throughput [nodeOkP, nodeOkP] none).2 = Outcome.completed ∧
    Event.moveMetricsFile ∈ (log_throughput [nodeOkP, nodeOkP] none).1 ∧
    Event.aggregate ∈ (log_throughput [nodeOkP, nodeOkP] none).1 := by
  decide

/-- C8 (corrected): with zero Replica-role servers `sync_servers` never
polls; it returns immediately without raising exactly when at most one
Primary is present, but with two or more Primaries it raises the
multiple-primaries error first, refuting "regardless of how many
Primary-role Nodes are present". -/
theorem C8_amended_no_replicas (servers : List NodeSpec) (r : Option PyError)
    (h : countReplicas servers = 0) :
    (sync_servers servers r).polled = false ∧
    ((sync_servers servers r).error = none ↔ countPrimaries servers ≤ 1) := by
  have hpart := counts_partition servers
  by_cases hlen : servers.length < 2
  · unfold sync_servers
    rw [if_pos hlen]
    exact ⟨rfl, iff_of_true rfl (by omega)⟩
  · have hcp : 2 ≤ countPrimaries servers := by omega
    rw [sync_servers_multi servers r hcp]
    exact ⟨rfl, iff_of_false (by simp) (by omega)⟩

/-- C8 witness: a single healthy primary and no replica. -/
theorem C8_amended_no_replicas_witness :
    (sync_servers [nodeOkP] none).polled = false ∧
    ((sync_servers [nodeOkP] none).error = none ↔ countPrimaries [nodeOkP] ≤ 1) :=
  C8_amended_no_replicas [nodeOkP] none (by decide)

/-- C8 counterexample: two primaries and zero replicas: `sync_servers`
raises the multiple-primaries error instead of returning without raising. -/
theorem C8_cex_two_primaries_zero_replicas :
    countReplicas [nodeOkP, nodeOkP] = 0 ∧
    (sync_servers [nodeOkP, nodeOkP] none).error =
      some (PyError.runtimeError MULTI_PRIMARY_MSG) := by
  decide

lemma teardownIndices_logError (m : String) :
    teardownIndices [Event.logError m] = [] := rfl

lemma teardownIndices_delete :
    teardownIndices [Event.deleteMetricsFile] = [] := rfl

lemma teardownIndices_tail4 :
    teardownIndices [Event.createResultsDir, Event.deleteOtherMetricsFiles,
      Event.moveMetricsFile, Event.aggregate] = [] := rfl

lemma teardownIndices_sync_attempt (b : Bool) :
    teardownIndices (if b then [Event.syncAttempt] else []) = [] := by
  cases b <;> rfl

lemma teardownIndices_sync_warn (o : Option PyError) :
    teardownIndices
      (match o with
       | some e => [Event.logWarn ("Syncing databases failed: " ++ e.msg)]
       | none => []) = [] := by
  cases o <;> rfl

/-- C9 (corrected): in every path of `log_throughput` the nodes are torn down
in the SAME order as they were set up (strictly increasing node index, the
order of the servers list), not in reverse: in a primary+replica run the
Primary node (index 0) is torn down first, not last. -/
theorem C9_amended_teardown_order (servers : List NodeSpec) (r : Option PyError) :
    teardownIndices (log_throughput servers r).1 =
      (match tryPhaseError servers with
       | none => List.range servers.length
       | some (PyError.runtimeError _) => startedNodes servers
       | some (PyError.otherError _) => []) ∧
    (teardownIndices (log_throughput servers r).1).Pairwise (· < ·) := by
  cases hsu : (runSetups 0 servers).2.2 with
  | some e =>
    cases e with
    | runtimeError m =>
      rw [log_throughput_setup_rte servers r m hsu]
      have hti : teardownIndices ((runSetups 0 servers).1 ++ [Event.logError m]
          ++ (startedNodes servers).map Event.teardown) = startedNodes servers := by
        simp only [teardownIndices_append, teardownIndices_setups,
          teardownIndices_logError, teardownIndices_map, List.nil_append,
          List.append_nil]
      constructor
      · rw [hti]
        simp only [tryPhaseError, hsu]
      · rw [hti]
        exact runSetups_running_pairwise 0 servers
    | otherError m =>
      rw [log_throughput_setup_other servers r m hsu]
      constructor
      · rw [teardownIndices_setups]
        simp only [tryPhaseError, hsu]
      · rw [teardownIndices_setups]
        exact List.Pairwise.nil
  | none =>
    cases hr : (runRuns 0 servers).2 with
    | some e =>
      cases e with
      | runtimeError m =>
        rw [log_throughput_run_rte servers r m hsu hr]
        have hti : teardownIndices ((runSetups 0 servers).1 ++ [Event.deleteMetricsFile]
            ++ (runRuns 0 servers).1 ++ [Event.logError m]
            ++ (startedNodes servers).map Event.teardown) = startedNodes servers := by
          simp only [teardownIndices_append, teardownIndices_setups,
            teardownIndices_runs, teardownIndices_delete, teardownIndices_logError,
            teardownIndices_map, List.nil_append, List.append_nil]
        constructor
        · rw [hti]
          simp only [tryPhaseError, hsu, hr]
        · rw [hti]
          exact runSetups_running_pairwise 0 servers
      | otherError m =>
        rw [log_throughput_run_other servers r m hsu hr]
        have hti : teardownIndices ((runSetups 0 servers).1 ++ [Event.deleteMetricsFile]
            ++ (runRuns 0 servers).1) = [] := by
          simp only [teardownIndices_append, teardownIndices_setups,
            teardownIndices_runs, teardownIndices_delete, List.nil_append,
            List.append_nil]
        constructor
        · rw [hti]
          simp only [tryPhaseError, hsu, hr]
        · rw [hti]
          exact List.Pairwise.nil
    | none =>
      rw [log_throughput_clean servers r hsu hr]
      have hti : teardownIndices ((runSetups 0 servers).1 ++ [Event.deleteMetricsFile]
          ++ (runRuns 0 servers).1
          ++ ((if (sync_servers servers r).polled then [Event.syncAttempt] else [])
              ++ (match (sync_servers servers r).error with
                  | some e => [Event.logWarn ("Syncing databases failed: " ++ e.msg)]
                  | none => []))
          ++ (List.range servers.length).map Event.teardown
          ++ [Event.createResultsDir, Event.deleteOtherMetricsFiles,
              Event.moveMetricsFile, Event.aggregate]) = List.range servers.length := by
        simp only [teardownIndices_append, teardownIndices_setups,
          teardownIndices_runs, teardownIndices_delete, teardownIndices_sync_attempt,
          teardownIndices_sync_warn, teardownIndices_tail4, teardownIndices_map,
          List.nil_append, List.append_nil]
      constructor
      · rw [hti]
        simp only [tryPhaseError, hsu, hr]
      · rw [hti]
        exact List.pairwise_lt_range servers.length

/-- C9 counterexample: the healthy primary+replica run built by `get_servers`
(Primary at index 0, Replica at index 1) tears down in order `[0, 1]` — the
Primary first — not in the claimed reverse order `[1, 0]` with the Primary
last. -/
theorem C9_cex_forward_teardown :
    prServers.map NodeSpec.role = [Role.primary, Role.replica] ∧
    teardownIndices (log_throughput prServers none).1 = [0, 1] ∧
    teardownIndices (log_throughput prServers none).1 ≠ [1, 0] := by
  decide

/-- Modelled from the spec: `constants.py` is not among the sources here; per
the spec's MetricsStore/MetricsFile description there is a csv produced by
the log serializer (the relevant stream for Primary runs). -/
def LOG_SERIALIZER_CSV : String := "log_serializer_task.csv"

/-- Modelled from the spec: the csv produced by the recovery manager (the
relevant stream for Replica runs). -/
def RECOVERY_MANAGER_CSV : String := "recovery_manager_task.csv"

/-- Modelled from the spec: `METRICS_FILES`, the module-global (process-wide)
list of candidate metrics artifact files, containing both candidate csvs. -/
def METRICS_FILES : List String := [LOG_SERIALIZER_CSV, RECOVERY_MANAGER_CSV]

/-- Python's `list.remove`: delete the first occurrence of `x` in place, or
raise `ValueError` when `x` is absent. -/
def pyListRemove (l : List String) (x : String) : Except String (List String) :=
  if x ∈ l then Except.ok (l.erase x) else Except.error "ValueError"

/-- The metrics file picked at line 50 of `log_throughput.py`:
`LOG_SERIALIZER_CSV` for the primary test type, else `RECOVERY_MANAGER_CSV`. -/
def metricsFileFor (test_type : TestType) : String :=
  if test_type = TestType.primary then LOG_SERIALIZER_CSV else RECOVERY_MANAGER_CSV

/-- The prologue of `log_throughput` acting on the module-global
`METRICS_FILES` list (lines 50-52): `other_metrics_files = METRICS_FILES`
merely aliases the global list, so `other_metrics_files.remove(metrics_file)`
destructively updates the global; the result is the new global state, or the
`ValueError` that `list.remove` raises when the entry is already gone. -/
def metricsPrologue (globalMetricsFiles : List String) (test_type : TestType) :
    Except String (List String) :=
  pyListRemove globalMetricsFiles (metricsFileFor test_type)

/-- One whole call of `log_throughput` threaded through the module-global
metrics-files state: the prologue runs before `get_servers` builds any
server, so a `ValueError` there aborts the call before any server exists;
otherwise the orchestration proceeds and the mutated global list is left in
place (never restored). -/
def log_throughput_call (globalMetricsFiles : List String) (test_type : TestType)
    (servers : List NodeSpec) (r : Option PyError) :
    Except String (List String × List Event × Outcome) :=
  match metricsPrologue globalMetricsFiles test_type with
  | Except.error m => Except.error m
  | Except.ok g2 => Except.ok (g2, log_throughput servers r)

/-- C10 (confirmed): the prologue destructively removes the selected metrics
file name from the shared global list and never restores it, so for either
test type a first call succeeds, leaving a global state missing that name,
and a second call in the same process with the same test type raises
`ValueError` from `list.remove` (and therefore before any server is
created). -/
theorem C10_metrics_files_global_mutation :
    (log_throughput_call METRICS_FILES TestType.primary prServers none =
        Except.ok ([RECOVERY_MANAGER_CSV], log_throughput prServers none) ∧
      log_throughput_call [RECOVERY_MANAGER_CSV] TestType.primary prServers none =
        Except.error "ValueError") ∧
    (log_throughput_call METRICS_FILES TestType.replica (okServers [Role.replica]) none =
        Except.ok ([LOG_SERIALIZER_CSV],
          log_throughput (okServers [Role.replica]) none) ∧
      log_throughput_call [LOG_SERIALIZER_CSV] TestType.replica
          (okServers [Role.replica]) none =
        Except.error "ValueError") := by
  refine ⟨⟨?_, ?_⟩, ⟨?_, ?_⟩⟩ <;> rfl
